import Mathlib

/-!
Verification development for a small conversational-assistant program
(a single Python source file, `src/main.py`).  The program has three
parts: a Postgres-backed conversation store (`PersistentChatHistory`),
a dynamic schema-to-table writer (`process_schema`), and a UI dispatcher
(`handle_interaction`).  Below we give a shallow embedding: the database
is an explicit state value (ordered row lists plus a log of executed
statements with their bound parameters), stateful Python functions become
Lean functions threading that state, and fallible code returns `Except`.
-/

namespace Chatbot

/-- A scalar value bound into a SQL statement: Python strings and floats.
Floats are modelled as rationals (the claims only concern exact decimal
values such as 30.0, where no rounding occurs). -/
inductive Value where
  | str : String → Value
  | num : Rat → Value
deriving DecidableEq, Repr

/-- One executed SQL statement: its text and its bound parameter tuple
(`db_cursor.execute(text, params)`). -/
structure Stmt where
  text : String
  params : List Value
deriving DecidableEq, Repr

/-- A row of the `chat_history` table (src/main.py lines 55-61):
columns (user_id, conversation_id, message_type, content). -/
structure Row where
  user_id : String
  conversation_id : String
  message_type : String
  content : String
deriving DecidableEq, Repr

/-- The database state: the `chat_history` rows in insertion order, the
dynamically created tables (name with column list), the rows inserted
into dynamic tables, and the log of every executed statement. -/
structure DBState where
  chatRows : List Row
  tables : List (String × List (String × String))
  dynRows : List (String × List Value)
  log : List Stmt
deriving DecidableEq, Repr

/-- A langchain chat message: `HumanMessage` or `AIMessage`
(src/main.py line 11). -/
inductive BaseMessage where
  | human : String → BaseMessage
  | ai : String → BaseMessage
deriving DecidableEq, Repr

/-- `"AI" if isinstance(message, AIMessage) else "Human"`
(src/main.py line 54). -/
def BaseMessage.typeTag : BaseMessage → String
  | .ai _ => "AI"
  | .human _ => "Human"

/-- The text content of a message. -/
def BaseMessage.contentOf : BaseMessage → String
  | .ai c => c
  | .human c => c

/-- `AIMessage(content=row[1]) if row[0] == "AI" else HumanMessage(content=row[1])`
(src/main.py line 76). -/
def rowToMessage (r : Row) : BaseMessage :=
  if r.message_type == "AI" then .ai r.content else .human r.content

/-- The rows of `chat_history` matching a (user_id, conversation_id) key,
in stored order (the `WHERE` clause of the SELECT, src/main.py lines 67-73). -/
def rowsFor (db : DBState) (uid cid : String) : List Row :=
  db.chatRows.filter (fun r => r.user_id == uid && r.conversation_id == cid)

/-- The in-memory chat-history object (src/main.py lines 43-46):
a (user_id, conversation_id) key plus a local message list. -/
structure PersistentChatHistory where
  user_id : String
  conversation_id : String
  messages : List BaseMessage
deriving DecidableEq, Repr

/-- `fetch_existing_messages` (src/main.py lines 65-78): executes a SELECT
for the key and maps each row's type tag back to a message. -/
def fetch_existing_messages (uid cid : String) (db : DBState) :
    List BaseMessage × DBState :=
  let rows := rowsFor db uid cid
  ( rows.map rowToMessage,
    { db with log := db.log ++
        [⟨"SELECT message_type, content FROM chat_history WHERE user_id = %s AND conversation_id = %s",
          [.str uid, .str cid]⟩] } )

/-- `PersistentChatHistory.__init__` (src/main.py lines 48-50): fresh
construction eagerly loads the stored messages for the key. -/
def PersistentChatHistory.construct (uid cid : String) (db : DBState) :
    PersistentChatHistory × DBState :=
  let (msgs, db') := fetch_existing_messages uid cid db
  (⟨uid, cid, msgs⟩, db')

/-- `add_message` (src/main.py lines 52-63): INSERT one row for the key
with the message's type tag and content, commit, and append to the local
list. -/
def PersistentChatHistory.add_message (h : PersistentChatHistory)
    (m : BaseMessage) (db : DBState) : PersistentChatHistory × DBState :=
  let row : Row := ⟨h.user_id, h.conversation_id, m.typeTag, m.contentOf⟩
  ( { h with messages := h.messages ++ [m] },
    { db with
        chatRows := db.chatRows ++ [row]
        log := db.log ++
          [⟨"INSERT INTO chat_history (user_id, conversation_id, message_type, content) VALUES (%s, %s, %s, %s)",
            [.str h.user_id, .str h.conversation_id, .str m.typeTag, .str m.contentOf]⟩] } )

/-- `clear` (src/main.py lines 80-90): DELETE all rows for the key,
commit, and clear the local list. -/
def PersistentChatHistory.clear (h : PersistentChatHistory) (db : DBState) :
    PersistentChatHistory × DBState :=
  ( { h with messages := [] },
    { db with
        chatRows := db.chatRows.filter
          (fun r => !(r.user_id == h.user_id && r.conversation_id == h.conversation_id))
        log := db.log ++
          [⟨"DELETE FROM chat_history WHERE user_id = %s AND conversation_id = %s",
            [.str h.user_id, .str h.conversation_id]⟩] } )

/-- A sequence of `add_message` calls on one history object. -/
def addAll (h : PersistentChatHistory) (msgs : List BaseMessage)
    (db : DBState) : PersistentChatHistory × DBState :=
  msgs.foldl (fun p m => p.1.add_message m p.2) (h, db)

/-- The stored row produced by appending message `m` under a key. -/
def mkRow (uid cid : String) (m : BaseMessage) : Row :=
  ⟨uid, cid, m.typeTag, m.contentOf⟩

theorem rowToMessage_mkRow (uid cid : String) (m : BaseMessage) :
    rowToMessage (mkRow uid cid m) = m := by
  cases m <;> simp [rowToMessage, mkRow, BaseMessage.typeTag, BaseMessage.contentOf]

theorem rowsFor_addAll (msgs : List BaseMessage) :
    ∀ (h : PersistentChatHistory) (db : DBState),
    rowsFor (addAll h msgs db).2 h.user_id h.conversation_id =
      rowsFor db h.user_id h.conversation_id ++ msgs.map (mkRow h.user_id h.conversation_id) := by
  induction msgs with
  | nil => intro h db; simp [addAll]
  | cons m ms ih =>
      intro h db
      have step : addAll h (m :: ms) db =
          addAll { h with messages := h.messages ++ [m] } ms
            (h.add_message m db).2 := by
        simp [addAll, PersistentChatHistory.add_message]
      rw [step, ih]
      simp [rowsFor, PersistentChatHistory.add_message, mkRow, List.filter_append]

/-- C1: starting from a store with no rows for the key, any sequence of
`add_message` calls on that key is returned exactly, in order, with role
tags preserved, by a load via fresh construction
(`fetch_existing_messages`). -/
theorem C1_append_load_roundtrip (uid cid : String) (msgs : List BaseMessage)
    (db : DBState) (hempty : rowsFor db uid cid = []) :
    (fetch_existing_messages uid cid (addAll ⟨uid, cid, []⟩ msgs db).2).1 = msgs := by
  have h := rowsFor_addAll msgs ⟨uid, cid, []⟩ db
  simp only [fetch_existing_messages]
  simp only at h
  rw [h, hempty]
  simp [Function.comp_def, rowToMessage_mkRow]

/-- Witness for C1 at a concrete store and message sequence. -/
theorem C1_witness :
    rowsFor ⟨[⟨"u2", "c2", "Human", "other"⟩], [], [], []⟩ "u1" "c1" = [] ∧
    (fetch_existing_messages "u1" "c1"
      (addAll ⟨"u1", "c1", []⟩ [.human "hello", .ai "hi there"]
        ⟨[⟨"u2", "c2", "Human", "other"⟩], [], [], []⟩).2).1 =
      [.human "hello", .ai "hi there"] :=
  ⟨by decide,
   C1_append_load_roundtrip "u1" "c1" [.human "hello", .ai "hi there"]
     ⟨[⟨"u2", "c2", "Human", "other"⟩], [], [], []⟩ (by decide)⟩

/-- C7: `clear` followed by a load on the same key returns the empty
sequence regardless of prior content, and `clear` also empties the
in-memory cached message list. -/
theorem C7_clear_then_load_empty (h : PersistentChatHistory) (db : DBState) :
    (h.clear db).1.messages = [] ∧
    (fetch_existing_messages h.user_id h.conversation_id (h.clear db).2).1 = [] := by
  constructor
  · rfl
  · simp [fetch_existing_messages, rowsFor, PersistentChatHistory.clear,
      List.filter_filter]

/- ### Conversation chain (LLM invocation wrapper) -/

/-- A message in the prompt list handed to the LLM provider. -/
inductive PromptMessage where
  | system : String → PromptMessage
  | human : String → PromptMessage
  | ai : String → PromptMessage
deriving DecidableEq, Repr

/-- View of a stored chat message as a prompt message. -/
def BaseMessage.toPrompt : BaseMessage → PromptMessage
  | .human c => .human c
  | .ai c => .ai c

/-- `chat_prompt` (src/main.py lines 34-40): fixed system instruction,
then the history placeholder, then the human question. -/
def chat_prompt (history : List BaseMessage) (question : String) :
    List PromptMessage :=
  PromptMessage.system "You are a helpful assistant." ::
    history.map BaseMessage.toPrompt ++ [PromptMessage.human question]

/-- Result of one chat invocation: the reply, the exact message list that
was sent to the LLM, and the database state afterwards. -/
structure ChatResult where
  reply : String
  promptSent : List PromptMessage
  db : DBState
deriving Repr

/-- Modelled from the spec: `RunnableWithMessageHistory` (src/main.py
lines 96-119) is langchain library code not present in the repository.
Per §4.2 of the spec, an invocation resolves the session key, loads the
history by fresh construction of `PersistentChatHistory` (§4.1 design
note), builds the prompt via `chat_prompt`, calls the LLM provider
synchronously, and on success appends the question as a human message
and then the reply as an ai message via `add_message`. -/
def chat_with_memory_invoke (llm : List PromptMessage → String)
    (uid cid question : String) (db : DBState) : ChatResult :=
  let (hist, db1) := PersistentChatHistory.construct uid cid db
  let prompt := chat_prompt hist.messages question
  let reply := llm prompt
  let (hist2, db2) := hist.add_message (.human question) db1
  let (_, db3) := hist2.add_message (.ai reply) db2
  ⟨reply, prompt, db3⟩

/-- C2: on a successful chat-mode invocation the message list sent to
the LLM is [fixed system instruction, prior messages of the conversation
in order, current question], and exactly two rows are appended to the
store for the key: the question as a human message first, then the reply
as an ai message. -/
theorem C2_chat_invocation_shape (llm : List PromptMessage → String)
    (uid cid question : String) (db : DBState) :
    (chat_with_memory_invoke llm uid cid question db).promptSent =
      PromptMessage.system "You are a helpful assistant." ::
        (rowsFor db uid cid).map (fun r => (rowToMessage r).toPrompt) ++
        [PromptMessage.human question] ∧
    rowsFor (chat_with_memory_invoke llm uid cid question db).db uid cid =
      rowsFor db uid cid ++
        [mkRow uid cid (.human question),
         mkRow uid cid (.ai (chat_with_memory_invoke llm uid cid question db).reply)] := by
  constructor
  · simp [chat_with_memory_invoke, PersistentChatHistory.construct,
      fetch_existing_messages, chat_prompt]
  · simp [chat_with_memory_invoke, PersistentChatHistory.construct,
      fetch_existing_messages, PersistentChatHistory.add_message, rowsFor,
      mkRow, List.filter_append, chat_prompt]

/- ### Dynamic table writer (`process_schema`) -/

/-- One entry of the parsed schema's `fields` list: `field['name']`,
`field['label']`, `field['type']` (src/main.py lines 127, 134-135). -/
structure FieldSpec where
  name : String
  label : String
  type : String
deriving DecidableEq, Repr

/-- The parsed JSON schema dict: `schema.get("table_name", "dynamic_data")`
and `schema.get("fields", [])` (src/main.py lines 123-124), so both keys
may be absent. -/
structure SchemaDict where
  table_name : Option String
  fields : Option (List FieldSpec)
deriving DecidableEq, Repr

/-- Python errors that `process_schema` can raise: `float()` on a
non-numeric string (ValueError, the spec's ValidationError), or `input()`
at end of input (EOFError). -/
inductive PyError where
  | validationError
  | eofError
deriving DecidableEq, Repr

/-- Digits of a decimal literal read as a natural number. -/
def natOfDigits (l : List Char) : Nat :=
  l.foldl (fun a c => 10 * a + (c.toNat - 48)) 0

/-- Strip leading and trailing whitespace from a character list. -/
def trimChars (l : List Char) : List Char :=
  ((l.dropWhile Char.isWhitespace).reverse.dropWhile Char.isWhitespace).reverse

/-- Python's `str.strip()`: the string with leading and trailing
whitespace removed. -/
def pyStrip (s : String) : String :=
  ⟨trimChars s.data⟩

/-- Split a character list at the first `.`, if any. -/
def splitOnDot : List Char → List Char × Option (List Char)
  | [] => ([], none)
  | c :: cs =>
      if c = '.' then ([], some cs)
      else
        let p := splitOnDot cs
        (c :: p.1, p.2)

/-- Python's `float()` on plain decimal literals (optional surrounding
whitespace, optional sign, digits with an optional fractional part):
`none` models the ValueError raised on a non-numeric string.  Exponent
and infinity/nan forms, which no claim exercises, are not modelled. -/
def parseFloat (s : String) : Option Rat :=
  let cs := trimChars s.data
  let signBody : Int × List Char :=
    match cs with
    | '-' :: r => (-1, r)
    | '+' :: r => (1, r)
    | r => (1, r)
  let sign := signBody.1
  let body := signBody.2
  match splitOnDot body with
  | (ip, none) =>
      if !ip.isEmpty && ip.all Char.isDigit then
        some (mkRat (sign * natOfDigits ip) 1)
      else none
  | (ip, some fp) =>
      if !fp.contains '.' && (!ip.isEmpty || !fp.isEmpty) &&
          ip.all Char.isDigit && fp.all Char.isDigit then
        some (mkRat (sign * (natOfDigits ip * 10 ^ fp.length + natOfDigits fp))
          (10 ^ fp.length))
      else none

/-- The body of the collection loop for one field (src/main.py
lines 134-136): the solicited text is kept as a string, except that a
`"number"` field coerces it with `float()`, raising on failure. -/
def coerceValue (f : FieldSpec) (raw : String) : Except PyError Value :=
  if f.type == "number" then
    match parseFloat raw with
    | some q => .ok (.num q)
    | none => .error .validationError
  else .ok (.str raw)

/-- `data_to_insert[field["name"]] = input_value` (src/main.py line 137)
with Python dict semantics: an existing key is updated in place, a new
key is appended. -/
def dictInsert (d : List (String × Value)) (k : String) (v : Value) :
    List (String × Value) :=
  if d.any (fun p => p.1 == k) then
    d.map (fun p => if p.1 == k then (k, v) else p)
  else d ++ [(k, v)]

/-- The collection loop of `process_schema` (src/main.py lines 132-137):
solicit one input per field in declared order, coercing number fields;
the first failure propagates. -/
def collectData : List FieldSpec → List String → List (String × Value) →
    Except PyError (List (String × Value))
  | [], _, acc => .ok acc
  | _ :: _, [], _ => .error .eofError
  | f :: fs, i :: is, acc =>
      match coerceValue f i with
      | .ok v => collectData fs is (dictInsert acc f.name v)
      | .error e => .error e

/-- The column fragment for one field: `f"{field['name']}
{'TEXT' if field['type'] == 'text' else 'NUMERIC'}"` (src/main.py line 127). -/
def columnDef (f : FieldSpec) : String :=
  f.name ++ " " ++ (if f.type == "text" then "TEXT" else "NUMERIC")

/-- `columns_sql` (src/main.py line 127). -/
def columns_sql (fields : List FieldSpec) : String :=
  String.intercalate ", " (fields.map columnDef)

/-- The text of the CREATE statement (src/main.py line 128). -/
def createStmtText (table_name : String) (fields : List FieldSpec) : String :=
  "CREATE TABLE IF NOT EXISTS " ++ table_name ++ " (" ++ columns_sql fields ++ ");"

/-- Database semantics of `CREATE TABLE IF NOT EXISTS`: a no-op on the
table list when the name already exists, otherwise the table is added
with exactly the given columns; the statement is logged with no bound
parameters either way. -/
def execCreate (db : DBState) (name : String) (cols : List (String × String))
    (text : String) : DBState :=
  { db with
      tables :=
        if db.tables.any (fun t => t.1 == name) then db.tables
        else db.tables ++ [(name, cols)]
      log := db.log ++ [⟨text, []⟩] }

/-- The text of the INSERT statement (src/main.py line 141): built from
the table name and the collected keys only; values appear solely as
`%s` placeholders. -/
def insertStmtText (table_name : String) (keys : List String) : String :=
  "INSERT INTO " ++ table_name ++ " (" ++ String.intercalate ", " keys ++
    ") VALUES (" ++ String.intercalate ", " (List.replicate keys.length "%s") ++ ")"

/-- `process_schema` (src/main.py lines 122-145): resolve the table name,
create the table if absent and commit, solicit and coerce one value per
field, insert the collected row with parameterized binding, commit, and
return the confirmation string. -/
def process_schema (schema : SchemaDict) (inputs : List String)
    (db : DBState) : Except PyError String × DBState :=
  let table_name := schema.table_name.getD "dynamic_data"
  let fields := schema.fields.getD []
  let db1 := execCreate db table_name
    (fields.map (fun f => (f.name, if f.type == "text" then "TEXT" else "NUMERIC")))
    (createStmtText table_name fields)
  match collectData fields inputs [] with
  | .error e => (.error e, db1)
  | .ok data =>
      let values := data.map (·.2)
      let text := insertStmtText table_name (data.map (·.1))
      ( .ok ("Data successfully saved to table '" ++ table_name ++ "'."),
        { db1 with
            dynRows := db1.dynRows ++ [(table_name, values)]
            log := db1.log ++ [⟨text, values⟩] } )

/- ### Interaction dispatcher (`handle_interaction`) -/

/-- The fixed invalid-format message (src/main.py line 163). -/
def invalid_format_message : String := "Invalid JSON format for schema."

/-- Default of the `user_id` ConfigurableFieldSpec (src/main.py line 107). -/
def default_user_id : String := ""

/-- Default of the `conversation_id` ConfigurableFieldSpec
(src/main.py line 115). -/
def default_conversation_id : String := ""

/-- `handle_interaction` (src/main.py lines 157-165).  `json.loads` is
Python standard-library code, passed in as `parseJson`, with `none`
modelling a raised `JSONDecodeError`; `schema.strip()` truthiness is
non-emptiness after trimming whitespace.  In chat mode
`chat_with_memory.invoke({"question": question})` passes no
configuration, so the session key resolves to the declared
ConfigurableFieldSpec defaults (library behavior, spec §4.4/§9). -/
def handle_interaction (parseJson : String → Option SchemaDict)
    (llm : List PromptMessage → String) (inputs : List String)
    (schema question : String) (db : DBState) :
    Except PyError String × DBState :=
  if pyStrip schema != "" then
    match parseJson schema with
    | some d => process_schema d inputs db
    | none => (.ok invalid_format_message, db)
  else
    let r := chat_with_memory_invoke llm default_user_id
      default_conversation_id question db
    (.ok r.reply, r.db)

/-- C6: the dispatcher selects schema-mode exactly when `schema_text` is
non-empty after trimming whitespace and chat-mode otherwise; schema-mode
hands the parsed schema to the Dynamic Table Writer (or answers the fixed
parse-failure message), chat-mode forwards the question text to the LLM
chain. -/
theorem C6_dispatch_decision (parseJson : String → Option SchemaDict)
    (llm : List PromptMessage → String) (inputs : List String)
    (schema question : String) (db : DBState) :
    (pyStrip schema ≠ "" →
      handle_interaction parseJson llm inputs schema question db =
        match parseJson schema with
        | some d => process_schema d inputs db
        | none => (.ok invalid_format_message, db)) ∧
    (pyStrip schema = "" →
      handle_interaction parseJson llm inputs schema question db =
        (.ok (chat_with_memory_invoke llm default_user_id
                default_conversation_id question db).reply,
         (chat_with_memory_invoke llm default_user_id
                default_conversation_id question db).db)) := by
  constructor
  · intro h
    simp [handle_interaction, bne, h]
  · intro h
    simp [handle_interaction, h]

/-- Witness for C6: a non-blank schema takes schema-mode, a blank one
takes chat-mode. -/
theorem C6_witness :
    handle_interaction (fun _ => none) (fun _ => "reply") [] "x" "q"
        ⟨[], [], [], []⟩ = (.ok invalid_format_message, ⟨[], [], [], []⟩) ∧
    handle_interaction (fun _ => none) (fun _ => "reply") [] " " "q"
        ⟨[], [], [], []⟩ =
      (.ok (chat_with_memory_invoke (fun _ => "reply") default_user_id
              default_conversation_id "q" ⟨[], [], [], []⟩).reply,
       (chat_with_memory_invoke (fun _ => "reply") default_user_id
              default_conversation_id "q" ⟨[], [], [], []⟩).db) :=
  ⟨(C6_dispatch_decision (fun _ => none) (fun _ => "reply") [] "x" "q"
      ⟨[], [], [], []⟩).1 (by decide),
   (C6_dispatch_decision (fun _ => none) (fun _ => "reply") [] " " "q"
      ⟨[], [], [], []⟩).2 (by decide)⟩

/-- C3, counterexample: the empty string is not parseable as JSON
(`json.loads("")` raises), yet on it the dispatcher does not return the
invalid-format message and does execute database statements — it routes
to chat-mode.  The claim only holds for non-blank schema text. -/
theorem C3_counterexample :
    (fun _ => (none : Option SchemaDict)) "" = none ∧
    (handle_interaction (fun _ => none) (fun _ => "reply") [] "" "q"
        ⟨[], [], [], []⟩).1 = .ok "reply" ∧
    "reply" ≠ invalid_format_message ∧
    (handle_interaction (fun _ => none) (fun _ => "reply") [] "" "q"
        ⟨[], [], [], []⟩).2.log.length = 3 :=
  ⟨rfl, rfl, by decide, rfl⟩

/-- C3, amended: for every schema_text that is non-empty after trimming
whitespace and not parseable as JSON, the dispatcher returns the fixed
invalid-format message and leaves the database state (hence the executed
statement log) unchanged, without calling `process_schema`. -/
theorem C3_invalid_json (parseJson : String → Option SchemaDict)
    (llm : List PromptMessage → String) (inputs : List String)
    (schema question : String) (db : DBState)
    (hne : pyStrip schema ≠ "") (hp : parseJson schema = none) :
    handle_interaction parseJson llm inputs schema question db =
      (.ok invalid_format_message, db) := by
  simp [handle_interaction, bne, hne, hp]

/-- Witness for C3's amended statement on the spec's own example input. -/
theorem C3_witness :
    pyStrip "not valid json" ≠ "" ∧
    handle_interaction (fun _ => none) (fun _ => "reply") []
        "not valid json" "q" ⟨[], [], [], []⟩ =
      (.ok invalid_format_message, ⟨[], [], [], []⟩) :=
  ⟨by decide,
   C3_invalid_json (fun _ => none) (fun _ => "reply") [] "not valid json"
     "q" ⟨[], [], [], []⟩ (by decide) rfl⟩

/-- C9: the dispatcher's chat-mode passes no user/conversation
configuration, so the session key resolves to the declared defaults
("", ""); every chat turn is persisted under the single shared key
("", "") and the history sent to the LLM is retrieved from that same
key. -/
theorem C9_shared_default_key (parseJson : String → Option SchemaDict)
    (llm : List PromptMessage → String) (inputs : List String)
    (schema question : String) (db : DBState) (h : pyStrip schema = "") :
    default_user_id = "" ∧ default_conversation_id = "" ∧
    handle_interaction parseJson llm inputs schema question db =
      (.ok (chat_with_memory_invoke llm "" "" question db).reply,
       (chat_with_memory_invoke llm "" "" question db).db) ∧
    (chat_with_memory_invoke llm "" "" question db).db.chatRows =
      db.chatRows ++
        [⟨"", "", "Human", question⟩,
         ⟨"", "", "AI", (chat_with_memory_invoke llm "" "" question db).reply⟩] ∧
    (chat_with_memory_invoke llm "" "" question db).promptSent =
      chat_prompt ((rowsFor db "" "").map rowToMessage) question := by
  refine ⟨rfl, rfl, ?_, ?_, ?_⟩
  · simp [handle_interaction, h, default_user_id, default_conversation_id]
  · simp [chat_with_memory_invoke, PersistentChatHistory.construct,
      fetch_existing_messages, PersistentChatHistory.add_message,
      BaseMessage.typeTag, BaseMessage.contentOf]
  · simp [chat_with_memory_invoke, PersistentChatHistory.construct,
      fetch_existing_messages, chat_prompt]

/-- Witness for C9 at a concrete blank-schema invocation. -/
theorem C9_witness :
    handle_interaction (fun _ => none) (fun _ => "reply") [] "" "hello"
        ⟨[], [], [], []⟩ =
      (.ok (chat_with_memory_invoke (fun _ => "reply") "" "" "hello"
              ⟨[], [], [], []⟩).reply,
       (chat_with_memory_invoke (fun _ => "reply") "" "" "hello"
              ⟨[], [], [], []⟩).db) ∧
    (chat_with_memory_invoke (fun _ => "reply") "" "" "hello"
        ⟨[], [], [], []⟩).db.chatRows =
      [⟨"", "", "Human", "hello"⟩, ⟨"", "", "AI", "reply"⟩] :=
  ⟨(C9_shared_default_key (fun _ => none) (fun _ => "reply") [] "" "hello"
      ⟨[], [], [], []⟩ (by decide)).2.2.1,
   by
    have h := (C9_shared_default_key (fun _ => none) (fun _ => "reply") []
      "" "hello" ⟨[], [], [], []⟩ (by decide)).2.2.2.1
    simpa using h⟩

/-- The column list as the spec describes it (§4.3 step 2): each field
becomes a column, in field order, typed TEXT when its declared type is
"text" and a numeric type otherwise; no primary-key, uniqueness or
nullability constraints (the structured column list carries nothing but
name and type). -/
def specColumnList (fields : List FieldSpec) : List (String × String) :=
  fields.map (fun f => (f.name, if f.type = "text" then "TEXT" else "NUMERIC"))

/-- C4: the table-creation step issues, first among its statements, an
idempotent create-if-absent statement with no bound parameters whose
column list comes from `schema.fields` in field order (TEXT for "text"
fields, NUMERIC otherwise, nothing else declared), under the schema's
table name or the fixed default `"dynamic_data"` when absent. -/
theorem C4_table_creation (schema : SchemaDict) (inputs : List String)
    (db : DBState) :
    (∃ rest, (process_schema schema inputs db).2.log =
        db.log ++ ⟨createStmtText (schema.table_name.getD "dynamic_data")
            (schema.fields.getD []), []⟩ :: rest) ∧
    createStmtText (schema.table_name.getD "dynamic_data")
        (schema.fields.getD []) =
      "CREATE TABLE IF NOT EXISTS " ++ schema.table_name.getD "dynamic_data" ++
        " (" ++ String.intercalate ", "
          ((specColumnList (schema.fields.getD [])).map
            (fun c => c.1 ++ " " ++ c.2)) ++ ");" ∧
    (process_schema schema inputs db).2.tables =
      (if db.tables.any (fun t => t.1 == schema.table_name.getD "dynamic_data")
       then db.tables
       else db.tables ++ [(schema.table_name.getD "dynamic_data",
         specColumnList (schema.fields.getD []))]) ∧
    (schema.table_name = none →
      schema.table_name.getD "dynamic_data" = "dynamic_data") := by
  refine ⟨?_, ?_, ?_, ?_⟩
  · cases hc : collectData (schema.fields.getD []) inputs [] with
    | error e => exact ⟨[], by simp [process_schema, execCreate, hc]⟩
    | ok d =>
        exact ⟨[⟨insertStmtText (schema.table_name.getD "dynamic_data")
            (d.map (·.1)), d.map (·.2)⟩],
          by simp [process_schema, execCreate, hc]⟩
  · simp only [createStmtText, columns_sql, specColumnList, List.map_map]
    have hmap : List.map columnDef (schema.fields.getD []) =
        List.map ((fun c : String × String => c.1 ++ " " ++ c.2) ∘
          fun f => (f.name, if f.type = "text" then "TEXT" else "NUMERIC"))
          (schema.fields.getD []) := by
      refine List.map_congr_left (fun f _ => ?_)
      simp only [Function.comp_apply, columnDef]
      by_cases h : f.type = "text" <;> simp [h]
    rw [hmap]
  · cases hc : collectData (schema.fields.getD []) inputs [] with
    | error e => simp [process_schema, execCreate, hc, specColumnList]
    | ok d => simp [process_schema, execCreate, hc, specColumnList]
  · intro h
    simp [h]

/-- Witness for C4 at a concrete schema with an absent table name. -/
theorem C4_witness :
    (process_schema ⟨none, some [⟨"age", "Age", "number"⟩,
        ⟨"name", "Name", "text"⟩]⟩ ["30", "Alice"] ⟨[], [], [], []⟩).2.tables =
      [("dynamic_data", [("age", "NUMERIC"), ("name", "TEXT")])] ∧
    (none : Option String).getD "dynamic_data" = "dynamic_data" := by
  have h := C4_table_creation ⟨none, some [⟨"age", "Age", "number"⟩,
    ⟨"name", "Name", "text"⟩]⟩ ["30", "Alice"] ⟨[], [], [], []⟩
  exact ⟨by simpa [specColumnList] using h.2.2.1, h.2.2.2 rfl⟩

/-- C5: for a field whose declared type is "number", the solicited text
is coerced with `float()` before insertion — a parseable input is stored
as a numeric value (never as the raw string) and reaches the inserted
row as such, while a non-numeric input raises an uncaught conversion
failure and no row is inserted. -/
theorem C5_number_field_coercion (f : FieldSpec) (raw : String)
    (tn : Option String) (db : DBState) (hf : f.type = "number") :
    (∀ q, parseFloat raw = some q →
      collectData [f] [raw] [] = .ok [(f.name, Value.num q)] ∧
      (process_schema ⟨tn, some [f]⟩ [raw] db).2.dynRows =
        db.dynRows ++ [(tn.getD "dynamic_data", [Value.num q])] ∧
      (process_schema ⟨tn, some [f]⟩ [raw] db).1 =
        .ok ("Data successfully saved to table '" ++
          tn.getD "dynamic_data" ++ "'.")) ∧
    (parseFloat raw = none →
      (process_schema ⟨tn, some [f]⟩ [raw] db).1 = .error .validationError ∧
      (process_schema ⟨tn, some [f]⟩ [raw] db).2.dynRows = db.dynRows) := by
  constructor
  · intro q hq
    have hcoll : collectData [f] [raw] [] = .ok [(f.name, Value.num q)] := by
      simp [collectData, coerceValue, hf, hq, dictInsert]
    refine ⟨hcoll, ?_, ?_⟩ <;> simp [process_schema, hcoll, execCreate]
  · intro hq
    have hcoll : collectData [f] [raw] [] = .error .validationError := by
      simp [collectData, coerceValue, hf, hq]
    constructor <;> simp [process_schema, hcoll, execCreate]

/-- Witness for C5: "30" is stored as the number 30, "abc" raises. -/
theorem C5_witness :
    collectData [⟨"age", "Age", "number"⟩] ["30"] [] =
      .ok [("age", Value.num (mkRat 30 1))] ∧
    (process_schema ⟨some "people", some [⟨"age", "Age", "number"⟩]⟩
        ["abc"] ⟨[], [], [], []⟩).1 = .error .validationError :=
  ⟨((C5_number_field_coercion ⟨"age", "Age", "number"⟩ "30" (some "people")
      ⟨[], [], [], []⟩ rfl).1 (mkRat 30 1) (by decide)).1,
   ((C5_number_field_coercion ⟨"age", "Age", "number"⟩ "abc" (some "people")
      ⟨[], [], [], []⟩ rfl).2 (by decide)).1⟩

theorem execCreate_table_present (db : DBState) (n : String)
    (cols : List (String × String)) (t : String) :
    ((execCreate db n cols t).tables.any (fun p => p.1 == n)) = true := by
  simp only [execCreate]
  split
  · assumption
  · simp [List.any_append]

/-- C10: `process_schema` commits the CREATE TABLE IF NOT EXISTS
statement before soliciting any field value, so when value collection
fails (e.g. a number coercion raises) the error propagates with no row
inserted while the created table and the already-executed CREATE
statement remain — the operation is not atomic and the database state is
changed on error. -/
theorem C10_create_survives_error (schema : SchemaDict)
    (inputs : List String) (db : DBState) (e : PyError)
    (h : collectData (schema.fields.getD []) inputs [] = .error e) :
    process_schema schema inputs db =
      (.error e,
       execCreate db (schema.table_name.getD "dynamic_data")
         ((schema.fields.getD []).map
           (fun f => (f.name, if f.type == "text" then "TEXT" else "NUMERIC")))
         (createStmtText (schema.table_name.getD "dynamic_data")
           (schema.fields.getD []))) ∧
    ((process_schema schema inputs db).2.tables.any
      (fun p => p.1 == schema.table_name.getD "dynamic_data")) = true ∧
    (process_schema schema inputs db).2.dynRows = db.dynRows ∧
    (process_schema schema inputs db).2.log =
      db.log ++ [⟨createStmtText (schema.table_name.getD "dynamic_data")
        (schema.fields.getD []), []⟩] := by
  refine ⟨by simp [process_schema, h], ?_, ?_, ?_⟩
  · have := execCreate_table_present db (schema.table_name.getD "dynamic_data")
      ((schema.fields.getD []).map
        (fun f => (f.name, if f.type == "text" then "TEXT" else "NUMERIC")))
      (createStmtText (schema.table_name.getD "dynamic_data")
        (schema.fields.getD []))
    simpa [process_schema, h] using this
  · simp [process_schema, h, execCreate]
  · simp [process_schema, h, execCreate]

/-- Witness for C10: a non-numeric input for a number field leaves the
table created but inserts no row. -/
theorem C10_witness :
    process_schema ⟨some "people", some [⟨"age", "Age", "number"⟩]⟩
        ["abc"] ⟨[], [], [], []⟩ =
      (.error .validationError,
       execCreate ⟨[], [], [], []⟩ "people" [("age", "NUMERIC")]
         (createStmtText "people" [⟨"age", "Age", "number"⟩])) :=
  (C10_create_survives_error ⟨some "people", some [⟨"age", "Age", "number"⟩]⟩
    ["abc"] ⟨[], [], [], []⟩ .validationError rfl).1

theorem dictInsert_keys (d : List (String × Value)) (k : String) (v : Value) :
    (dictInsert d k v).map (·.1) =
      if d.any (fun p => p.1 == k) then d.map (·.1) else d.map (·.1) ++ [k] := by
  simp only [dictInsert]
  split
  · next h =>
      simp only [h, if_true, List.map_map]
      refine List.map_congr_left (fun p _ => ?_)
      simp only [Function.comp_apply]
      by_cases hpk : p.1 == k
      · simp only [beq_iff_eq] at hpk
        simp [hpk]
      · simp [hpk]
  · next h =>
      simp [h]

theorem anyKey_map (d : List (String × Value)) (k : String) :
    (d.map (·.1)).any (fun s => s == k) = d.any (fun p => p.1 == k) := by
  induction d with
  | nil => rfl
  | cons x xs ih => simp [ih]

/-- The key list that the collection loop produces for a given field
list, independently of the solicited values: dict keys in first-insertion
order. -/
def collectedKeys : List FieldSpec → List String → List String
  | [], ks => ks
  | f :: fs, ks =>
      collectedKeys fs (if ks.any (fun s => s == f.name) then ks else ks ++ [f.name])

theorem collectData_keys (fields : List FieldSpec) :
    ∀ (inputs : List String) (acc d : List (String × Value)),
    collectData fields inputs acc = .ok d →
    d.map (·.1) = collectedKeys fields (acc.map (·.1)) := by
  induction fields with
  | nil =>
      intro inputs acc d h
      cases inputs <;> simp [collectData] at h <;> simp [collectedKeys, ← h]
  | cons f fs ih =>
      intro inputs acc d h
      cases inputs with
      | nil => simp [collectData] at h
      | cons i is =>
          cases hcv : coerceValue f i with
          | error e => simp [collectData, hcv] at h
          | ok v =>
              simp only [collectData, hcv] at h
              have hrec := ih is (dictInsert acc f.name v) d h
              rw [hrec]
              simp only [collectedKeys]
              rw [dictInsert_keys, anyKey_map]

/-- C8: for two runs of the row-insert step with the same
SchemaDescription but different solicited values, the INSERT statement
text is identical (it is a function of the schema's table and key names
only); the values reach the database exclusively through the bound
parameter tuple, while the table name and the column names are
interpolated into the statement text. -/
theorem C8_insert_text_value_independent (schema : SchemaDict)
    (inputs₁ inputs₂ : List String) (db₁ db₂ : DBState)
    (d₁ d₂ : List (String × Value))
    (h₁ : collectData (schema.fields.getD []) inputs₁ [] = .ok d₁)
    (h₂ : collectData (schema.fields.getD []) inputs₂ [] = .ok d₂) :
    (process_schema schema inputs₁ db₁).2.log.getLast? =
      some ⟨insertStmtText (schema.table_name.getD "dynamic_data")
        (d₁.map (·.1)), d₁.map (·.2)⟩ ∧
    (process_schema schema inputs₂ db₂).2.log.getLast? =
      some ⟨insertStmtText (schema.table_name.getD "dynamic_data")
        (d₂.map (·.1)), d₂.map (·.2)⟩ ∧
    insertStmtText (schema.table_name.getD "dynamic_data") (d₁.map (·.1)) =
      insertStmtText (schema.table_name.getD "dynamic_data") (d₂.map (·.1)) ∧
    insertStmtText (schema.table_name.getD "dynamic_data") (d₁.map (·.1)) =
      "INSERT INTO " ++ schema.table_name.getD "dynamic_data" ++ " (" ++
        String.intercalate ", " (d₁.map (·.1)) ++ ") VALUES (" ++
        String.intercalate ", "
          (List.replicate (d₁.map (·.1)).length "%s") ++ ")" := by
  have hk₁ := collectData_keys (schema.fields.getD []) inputs₁ [] d₁ h₁
  have hk₂ := collectData_keys (schema.fields.getD []) inputs₂ [] d₂ h₂
  refine ⟨?_, ?_, ?_, rfl⟩
  · simp [process_schema, h₁, execCreate]
  · simp [process_schema, h₂, execCreate]
  · rw [hk₁, hk₂]

/-- Witness for C8: two runs with different values produce the same
INSERT text. -/
theorem C8_witness :
    (process_schema ⟨some "people", some [⟨"age", "Age", "number"⟩,
        ⟨"name", "Name", "text"⟩]⟩ ["30", "Alice"] ⟨[], [], [], []⟩).2.log.getLast? =
      some ⟨insertStmtText "people" ["age", "name"],
        [Value.num (mkRat 30 1), Value.str "Alice"]⟩ ∧
    insertStmtText "people" ["age", "name"] =
      insertStmtText "people"
        (([("age", Value.num (mkRat 31 1)), ("name", Value.str "Bob")].map
          (fun x => x.1))) := by
  have h := C8_insert_text_value_independent
    ⟨some "people", some [⟨"age", "Age", "number"⟩, ⟨"name", "Name", "text"⟩]⟩
    ["30", "Alice"] ["31", "Bob"] ⟨[], [], [], []⟩ ⟨[], [], [], []⟩
    [("age", Value.num (mkRat 30 1)), ("name", Value.str "Alice")]
    [("age", Value.num (mkRat 31 1)), ("name", Value.str "Bob")]
    rfl rfl
  exact ⟨h.1, h.2.2.1⟩

end Chatbot
